import Mathlib

set_option maxRecDepth 4096

/-!
Shallow embedding of the `notes-fastapi` email gateway (`src/app.py`).

The service has two endpoints:

* `POST /send-email` (`send_email`): reads `SOURCE_EMAIL` from the process
  environment, validates that subject and body are non-blank, validates the
  receiver's domain via an MX lookup (`validate_email_domain`), calls the SES
  client's `send_email`, and maps provider exceptions to HTTP status codes.
* `GET /test-aws` (`test_aws`): probes `https://email.<region>.amazonaws.com`
  with a 5-second timeout and reports status plus the first 100 characters.

External effects (the environment, the DNS resolver, the SES client and the
HTTP GET of the probe) are modelled as oracle functions passed to the
handlers, and each handler additionally returns the ordered list of network
`Event`s it performed, so that "no DNS lookup or provider call is attempted"
and "no retry" are statable.
-/

set_option autoImplicit false

namespace EmailGateway

/-- The process environment: `os.getenv` is lookup in this map. -/
def Env : Type := String → Option String

/-- A DNS resolution failure, as raised by `dns.resolver.resolve`.  The code
catches bare `Exception`, so the constructors only record the possible causes
named by the docs (no records, NXDOMAIN, timeout, malformed domain, other). -/
inductive DnsError where
  | noMxRecords
  | nxdomain
  | lookupTimeout
  | malformedDomain
  | otherDnsError (msg : String)
deriving DecidableEq, Repr

/-- The DNS oracle: `dns.resolver.resolve(domain, "MX")` either succeeds or
raises a `DnsError`. -/
def DnsOracle : Type := String → Except DnsError Unit

/-- `Destination={"ToAddresses": [...]}` dict passed to `ses_client.send_email`.
The source constructs it with only the `ToAddresses` key; absent `CcAddresses`
and `BccAddresses` keys are the empty list. -/
structure SesDestination where
  ToAddresses : List String
  CcAddresses : List String
  BccAddresses : List String
deriving DecidableEq, Repr

/-- The `Body` part of the `Message` dict: `{"Text": {"Data": ...}}`; an absent
`Html` key is `none`. -/
structure SesMsgBody where
  TextData : Option String
  HtmlData : Option String
deriving DecidableEq, Repr

/-- The keyword arguments of the `ses_client.send_email` call: `Source`,
`Destination` and `Message` (whose `Subject` and `Body` sub-dicts are
flattened into `SubjectData` and `Body`). -/
structure SendArgs where
  Source : String
  Destination : SesDestination
  SubjectData : String
  Body : SesMsgBody
deriving DecidableEq, Repr

/-- Outcome of a `ses_client.send_email` call: success, or one of the
exceptions the handler catches.  `incompleteCredsError` stands for botocore's
"PartialCredentialsError"; `otherError` is any uncategorized exception with
its stringified message. -/
inductive SesOutcome where
  | ok
  | messageRejected
  | throttlingException
  | noCredentialsError
  | incompleteCredsError
  | endpointConnectionError
  | otherError (msg : String)
deriving DecidableEq, Repr

/-- The SES client oracle: one invocation of the provider's send operation. -/
def SesOracle : Type := SendArgs → SesOutcome

/-- A response of the HTTP GET performed by `/test-aws` (`requests.get`). -/
structure HttpResp where
  status_code : Nat
  text : String
deriving DecidableEq, Repr

/-- The oracle for `requests.get(url, timeout=...)`: either a response or an
exception with its stringified message. -/
def GetOracle : Type := String → Nat → Except String HttpResp

/-- A network side effect performed by a handler, in order. -/
inductive Event where
  | dnsLookup (domain : String)
  | sesSend (args : SendArgs)
  | httpGet (url : String) (timeoutSecs : Nat)
deriving DecidableEq, Repr

/-- An HTTP response produced by a handler: the success body of
`/send-email`, the success body of `/test-aws`, or an `HTTPException` with
status code and detail. -/
inductive Resp where
  | okMessage (message : String)
  | okStatusText (status : Nat) (text : String)
  | error (status_code : Nat) (detail : String)
deriving DecidableEq, Repr

/-- The request body of `POST /send-email` (pydantic model `EmailRequest`),
after shape validation. -/
structure EmailRequest where
  receiver_email : String
  subject : String
  body_text : String
deriving DecidableEq, Repr

/-- Python's `s.split("@")` on the character list of `s`: splits at every
`'@'`; never returns the empty list (on no occurrence it returns `[s]`). -/
def splitOnAtSign : List Char → List (List Char)
  | [] => [[]]
  | c :: rest =>
    let r := splitOnAtSign rest
    if c = '@' then
      [] :: r
    else
      match r with
      | [] => [[c]]
      | h :: t => (c :: h) :: t

/-- `email.split("@")[-1]`: the domain part, the substring after the last
`'@'` (the whole string when there is no `'@'`). -/
def domainOf (email : String) : String :=
  String.mk ((splitOnAtSign email.toList).getLastD [])

/-- `validate_email_domain` from the source: look up MX records for the
domain after the last `'@'`; return `True` on success, raise
`HTTPException(400, ...)` naming the domain on any resolver exception.
Also returns the DNS lookup event performed. -/
def validate_email_domain (dns : DnsOracle) (email : String) :
    Except (Nat × String) Bool × List Event :=
  let domain := domainOf email
  match dns domain with
  | .ok _ => (.ok true, [.dnsLookup domain])
  | .error _ =>
      (.error (400,
        "Domain '" ++ domain ++ "' has no MX records or cannot receive email"),
       [.dnsLookup domain])

/-- Python truthiness of `os.getenv(...)`-results: `None` and `""` are falsy. -/
def pythonFalsy : Option String → Bool
  | none => true
  | some s => s.isEmpty

/-- `not source_email` in the handler: `SOURCE_EMAIL` unset or empty. -/
def sourceMissing (env : Env) : Bool :=
  pythonFalsy (env "SOURCE_EMAIL")

/-- Python's `s.strip()`: the string with leading and trailing whitespace
removed. -/
def pyStrip (s : String) : String :=
  String.mk
    (((s.toList.dropWhile Char.isWhitespace).reverse.dropWhile
        Char.isWhitespace).reverse)

/-- `not req.subject.strip() or not req.body_text.strip()`. -/
def blankReq (req : EmailRequest) : Bool :=
  (pyStrip req.subject).isEmpty || (pyStrip req.body_text).isEmpty

/-- The keyword arguments the handler passes to `ses_client.send_email`. -/
def sendArgsOf (source_email : String) (req : EmailRequest) : SendArgs :=
  { Source := source_email
    Destination :=
      { ToAddresses := [req.receiver_email]
        CcAddresses := []
        BccAddresses := [] }
    SubjectData := req.subject
    Body := { TextData := some req.body_text, HtmlData := none } }

/-- The `POST /send-email` handler body.  `env` is the process environment at
request-handling time (`os.getenv("SOURCE_EMAIL")` is read here, per
request); `dns` and `ses` are the resolver and the SES client constructed at
process start.  Returns the response together with the ordered network
events. -/
def send_email (env : Env) (dns : DnsOracle) (ses : SesOracle)
    (req : EmailRequest) : Resp × List Event :=
  let source_email := env "SOURCE_EMAIL"
  if pythonFalsy source_email then
    (.error 500 "Source email not configured in environment", [])
  else if (pyStrip req.subject).isEmpty || (pyStrip req.body_text).isEmpty then
    (.error 400 "Subject and body cannot be empty", [])
  else
    match validate_email_domain dns req.receiver_email with
    | (.error e, evs) => (.error e.1 e.2, evs)
    | (.ok _, evs) =>
      let args := sendArgsOf (source_email.getD "") req
      let evs2 := evs ++ [.sesSend args]
      match ses args with
      | .ok =>
          (.okMessage ("Email successfully sent to " ++ req.receiver_email),
           evs2)
      | .messageRejected =>
          (.error 400
            "Email rejected by AWS SES (unverified sender/recipient or invalid content)",
           evs2)
      | .throttlingException =>
          (.error 429 "AWS SES rate limit exceeded. Please try again later.",
           evs2)
      | .noCredentialsError =>
          (.error 401 "AWS credentials not found", evs2)
      | .incompleteCredsError =>
          (.error 401 "Incomplete AWS credentials", evs2)
      | .endpointConnectionError =>
          (.error 503 "Unable to reach AWS SES endpoint (check region or network)",
           evs2)
      | .otherError msg =>
          (.error 500 ("Unexpected error: " ++ msg), evs2)

/-- Module-level state established at process start: `region =
os.getenv("AWS_REGION", "us-east-1")` (the SES client is then constructed
once with this region). -/
structure AppState where
  region : String
deriving DecidableEq, Repr

/-- Module import at process start: read `AWS_REGION` with default
`"us-east-1"` from the startup environment. -/
def startup (env : Env) : AppState :=
  { region := (env "AWS_REGION").getD "us-east-1" }

/-- The `GET /test-aws` handler body.  `envReq` is the process environment at
request-handling time; the handler reads no environment variable (the URL is
built from the module-level `region` captured at process start), hence the
parameter is unused.  `requests.get(url, timeout=5)`; on success returns the
probed status and the first 100 characters of the body, on any exception an
`HTTPException(500, "Network test failed: ...")`. -/
def test_aws (st : AppState) (_envReq : Env) (get : GetOracle) :
    Resp × List Event :=
  let url := "https://email." ++ st.region ++ ".amazonaws.com"
  match get url 5 with
  | .ok r => (.okStatusText r.status_code (r.text.take 100), [.httpGet url 5])
  | .error e => (.error 500 ("Network test failed: " ++ e), [.httpGet url 5])

/-- Modelled from the spec: pydantic's `EmailStr` shape validation of
`EmailRequest.receiver_email` (the pydantic/email-validator code is not in
the repository).  The spec requires a "syntactically valid email": exactly
one `'@'`, non-empty local part, non-empty domain containing a dot, and no
spaces. -/
def isValidEmailShape (s : String) : Bool :=
  match splitOnAtSign s.toList with
  | [l, d] =>
    !l.isEmpty && !d.isEmpty && d.contains '.' &&
      !l.contains ' ' && !d.contains ' '
  | _ => false

/-- The full `POST /send-email` route: FastAPI/pydantic validate the body
shape first (a failure is a 422 validation error produced before the handler
body runs); only a shape-valid request reaches `send_email`. -/
def handle_send_email (env : Env) (dns : DnsOracle) (ses : SesOracle)
    (raw : EmailRequest) : Resp × List Event :=
  if isValidEmailShape raw.receiver_email then
    send_email env dns ses raw
  else
    (.error 422 "value is not a valid email address", [])

/-! ### Helper lemmas about `splitOnAtSign` and `domainOf` -/

theorem splitOnAtSign_ne_nil (cs : List Char) : splitOnAtSign cs ≠ [] := by
  induction cs with
  | nil => simp [splitOnAtSign]
  | cons c rest ih =>
    simp only [splitOnAtSign]
    split
    · simp
    · cases h : splitOnAtSign rest <;> simp

theorem splitOnAtSign_no_at (cs : List Char) (h : '@' ∉ cs) :
    splitOnAtSign cs = [cs] := by
  induction cs with
  | nil => rfl
  | cons c rest ih =>
    have hc : ¬ c = '@' := fun hc => h (hc ▸ List.mem_cons_self c rest)
    have hr : '@' ∉ rest := fun hm => h (List.mem_cons_of_mem c hm)
    simp only [splitOnAtSign, if_neg hc, ih hr]

theorem two_le_length_splitOnAtSign (cs : List Char) (h : '@' ∈ cs) :
    2 ≤ (splitOnAtSign cs).length := by
  induction cs with
  | nil => cases h
  | cons c rest ih =>
    by_cases hc : c = '@'
    · have h1 : 1 ≤ (splitOnAtSign rest).length :=
        List.length_pos.mpr (splitOnAtSign_ne_nil rest)
      simp only [splitOnAtSign, if_pos hc, List.length_cons]
      omega
    · have hr : '@' ∈ rest := by
        rcases List.mem_cons.mp h with h | h
        · exact absurd h.symm hc
        · exact h
      have h2 := ih hr
      simp only [splitOnAtSign, if_neg hc]
      cases hsp : splitOnAtSign rest with
      | nil => exact absurd hsp (splitOnAtSign_ne_nil rest)
      | cons a t =>
        simp only [List.length_cons]
        rw [hsp] at h2
        simpa using h2

theorem getLastD_splitOnAtSign_append (l d : List Char) (h : '@' ∉ d) :
    (splitOnAtSign (l ++ '@' :: d)).getLastD [] = d := by
  induction l with
  | nil =>
    simp only [List.nil_append, splitOnAtSign, if_pos rfl,
      splitOnAtSign_no_at d h]
    rfl
  | cons c l ih =>
    have hmem : '@' ∈ l ++ '@' :: d := by simp
    have hlen := two_le_length_splitOnAtSign _ hmem
    simp only [List.cons_append, splitOnAtSign]
    split
    · rw [List.getLastD_cons]
      exact ih
    · cases hsp : splitOnAtSign (l ++ '@' :: d) with
      | nil => exact absurd hsp (splitOnAtSign_ne_nil _)
      | cons a t =>
        rw [hsp] at hlen
        cases t with
        | nil => simp at hlen
        | cons b t' =>
          rw [hsp, List.getLastD_cons] at ih
          simpa [List.getLastD_cons] using ih

theorem domainOf_after_last_at (l d : String) (h : d.toList.contains '@' = false) :
    domainOf (l ++ "@" ++ d) = d := by
  have hmem : '@' ∉ d.toList := by
    intro hm
    have : d.toList.contains '@' = true := List.elem_eq_true_of_mem hm
    rw [h] at this
    exact Bool.false_ne_true this
  have hdata : (l ++ "@" ++ d).toList = l.toList ++ '@' :: d.toList := by
    simp [String.toList, String.data_append]
  simp only [domainOf, hdata, getLastD_splitOnAtSign_append _ _ hmem]
  rfl

theorem contains_at_of_splitOnAtSign_pair (cs : List Char) (a b : List Char)
    (h : splitOnAtSign cs = [a, b]) : '@' ∈ cs := by
  by_contra hn
  rw [splitOnAtSign_no_at cs hn] at h
  simp at h

/-! ### Concrete fixtures, used by witnesses and counterexamples -/

/-- Whether an event is an invocation of the provider's send operation. -/
def isSesSend : Event → Bool
  | .sesSend _ => true
  | _ => false

/-- An environment with `SOURCE_EMAIL` configured. -/
def envW : Env := fun k => if k = "SOURCE_EMAIL" then some "sender@example.com" else none

/-- An empty environment (no variable set). -/
def envNone : Env := fun _ => none

/-- A resolver for which every MX lookup succeeds. -/
def dnsOkAll : DnsOracle := fun _ => .ok ()

/-- A resolver for which every MX lookup raises. -/
def dnsFailAll : DnsOracle := fun _ => .error .noMxRecords

/-- A well-formed request. -/
def reqW : EmailRequest := ⟨"user@example.com", "Hi", "Hello"⟩

/-- A request whose subject is whitespace-only and whose receiver domain is
unresolvable. -/
def reqBlank : EmailRequest := ⟨"user@invalid.example", " ", "Hello"⟩

/-- SES clients with each fixed outcome. -/
def sesOkAll : SesOracle := fun _ => .ok

def sesRejectAll : SesOracle := fun _ => .messageRejected

def sesThrottleAll : SesOracle := fun _ => .throttlingException

def sesNoCredsAll : SesOracle := fun _ => .noCredentialsError

def sesIncompleteAll : SesOracle := fun _ => .incompleteCredsError

def sesEndpointAll : SesOracle := fun _ => .endpointConnectionError

def sesOtherAll : SesOracle := fun _ => .otherError "boom"

/-- The startup environment of the region counterexample: `AWS_REGION` is
`us-east-1` at process start. -/
def env0Start : Env := fun k => if k = "AWS_REGION" then some "us-east-1" else none

/-- The request-time environment of the region counterexample: by the time
the request is handled, `AWS_REGION` has been changed to `eu-west-1`. -/
def env1Request : Env := fun k => if k = "AWS_REGION" then some "eu-west-1" else none

/-- A probe oracle answering 200 and echoing the probed URL as body. -/
def getEcho : GetOracle := fun url _ => .ok ⟨200, url⟩

/-- A probe oracle that always raises. -/
def getFail : GetOracle := fun _ _ => .error "connection refused"

/-- An environment that agrees with `envW` on `SOURCE_EMAIL` but differs on
every other variable. -/
def envW2 : Env := fun k => if k = "SOURCE_EMAIL" then some "sender@example.com" else some "junk"

/-! ### Claim theorems -/

/-- C1: the `/send-email` preconditions run in a fixed order with the first
failure winning: a missing or empty `SOURCE_EMAIL` yields 500 with no DNS
lookup and no provider call; otherwise a blank subject or body yields 400
with no DNS lookup and no provider call; otherwise the domain validation
runs (the DNS lookup is the first event) and the provider send is invoked
exactly when it succeeds. -/
theorem send_email_validation_order (env : Env) (dns : DnsOracle)
    (ses : SesOracle) (req : EmailRequest) :
    (sourceMissing env = true →
      send_email env dns ses req =
        (.error 500 "Source email not configured in environment", []))
    ∧ (sourceMissing env = false → blankReq req = true →
      send_email env dns ses req =
        (.error 400 "Subject and body cannot be empty", []))
    ∧ (sourceMissing env = false → blankReq req = false →
      (send_email env dns ses req).snd =
        .dnsLookup (domainOf req.receiver_email) ::
          (match dns (domainOf req.receiver_email) with
            | .ok _ =>
                [Event.sesSend (sendArgsOf ((env "SOURCE_EMAIL").getD "") req)]
            | .error _ => [])) := by
  refine ⟨?_, ?_, ?_⟩
  · intro h
    simp only [sourceMissing] at h
    simp [send_email, h]
  · intro h hb
    simp only [sourceMissing] at h
    simp only [blankReq] at hb
    simp [send_email, h, hb]
  · intro h hb
    simp only [sourceMissing] at h
    simp only [blankReq] at hb
    cases hd : dns (domainOf req.receiver_email) with
    | ok u =>
      simp only [send_email, validate_email_domain, h, hb, hd]
      cases ses (sendArgsOf ((env "SOURCE_EMAIL").getD "") req) <;> simp
    | error e =>
      simp [send_email, validate_email_domain, h, hb, hd]

/-- Witness for `send_email_validation_order`: a missing source, a blank
subject, and a failing DNS lookup each hit the corresponding branch at
concrete inputs. -/
theorem send_email_validation_order_witness :
    (sourceMissing envNone = true ∧
      send_email envNone dnsOkAll sesOkAll reqW =
        (.error 500 "Source email not configured in environment", []))
    ∧ (sourceMissing envW = false ∧ blankReq reqBlank = true ∧
      send_email envW dnsOkAll sesOkAll reqBlank =
        (.error 400 "Subject and body cannot be empty", []))
    ∧ (blankReq reqW = false ∧
      (send_email envW dnsFailAll sesOkAll reqW).snd =
        [.dnsLookup "example.com"]) :=
  ⟨⟨by decide,
    (send_email_validation_order envNone dnsOkAll sesOkAll reqW).1 (by decide)⟩,
   ⟨by decide, by decide,
    (send_email_validation_order envW dnsOkAll sesOkAll reqBlank).2.1
      (by decide) (by decide)⟩,
   ⟨by decide,
    ((send_email_validation_order envW dnsFailAll sesOkAll reqW).2.2
      (by decide) (by decide)).trans (by decide)⟩⟩

/-- C4: a request with a blank (empty or whitespace-only) subject or body
yields 400 "Subject and body cannot be empty", for every receiver address
and every DNS oracle (given a configured source address). -/
theorem blank_subject_or_body_400 (env : Env) (dns : DnsOracle)
    (ses : SesOracle) (req : EmailRequest)
    (hsrc : sourceMissing env = false) (hblank : blankReq req = true) :
    send_email env dns ses req =
      (.error 400 "Subject and body cannot be empty", []) := by
  simp only [sourceMissing] at hsrc
  simp only [blankReq] at hblank
  simp [send_email, hsrc, hblank]

/-- Witness for `blank_subject_or_body_400`: a whitespace-only subject with
an unresolvable receiver domain still yields the 400. -/
theorem blank_subject_or_body_400_witness :
    sourceMissing envW = false ∧ blankReq reqBlank = true ∧
    send_email envW dnsFailAll sesRejectAll reqBlank =
      (.error 400 "Subject and body cannot be empty", []) :=
  ⟨by decide, by decide,
   blank_subject_or_body_400 envW dnsFailAll sesRejectAll reqBlank
     (by decide) (by decide)⟩

/-- C2: on a request that passes all three preconditions, each categorized
provider exception maps to its HTTP status (MessageRejected 400,
ThrottlingException 429, NoCredentialsError 401, PartialCredentialsError
401, EndpointConnectionError 503), and the provider's send operation is
invoked exactly once (no retry). -/
theorem send_email_provider_error_statuses (env : Env) (dns : DnsOracle)
    (ses : SesOracle) (req : EmailRequest) (src : String)
    (hsrcv : env "SOURCE_EMAIL" = some src) (hne : src.isEmpty = false)
    (hblank : blankReq req = false)
    (hdns : dns (domainOf req.receiver_email) = .ok ()) :
    (ses (sendArgsOf src req) = .messageRejected →
      (send_email env dns ses req).fst = .error 400
        "Email rejected by AWS SES (unverified sender/recipient or invalid content)")
    ∧ (ses (sendArgsOf src req) = .throttlingException →
      (send_email env dns ses req).fst = .error 429
        "AWS SES rate limit exceeded. Please try again later.")
    ∧ (ses (sendArgsOf src req) = .noCredentialsError →
      (send_email env dns ses req).fst = .error 401 "AWS credentials not found")
    ∧ (ses (sendArgsOf src req) = .incompleteCredsError →
      (send_email env dns ses req).fst = .error 401 "Incomplete AWS credentials")
    ∧ (ses (sendArgsOf src req) = .endpointConnectionError →
      (send_email env dns ses req).fst = .error 503
        "Unable to reach AWS SES endpoint (check region or network)")
    ∧ (send_email env dns ses req).snd.countP isSesSend = 1 := by
  simp only [blankReq] at hblank
  refine ⟨?_, ?_, ?_, ?_, ?_, ?_⟩
  · intro hses
    simp [send_email, hsrcv, pythonFalsy, hne, hblank, validate_email_domain,
      hdns, hses]
  · intro hses
    simp [send_email, hsrcv, pythonFalsy, hne, hblank, validate_email_domain,
      hdns, hses]
  · intro hses
    simp [send_email, hsrcv, pythonFalsy, hne, hblank, validate_email_domain,
      hdns, hses]
  · intro hses
    simp [send_email, hsrcv, pythonFalsy, hne, hblank, validate_email_domain,
      hdns, hses]
  · intro hses
    simp [send_email, hsrcv, pythonFalsy, hne, hblank, validate_email_domain,
      hdns, hses]
  · cases hs : ses (sendArgsOf src req) <;>
      simp [send_email, hsrcv, pythonFalsy, hne, hblank, validate_email_domain,
        hdns, hs, isSesSend]

/-- Witness for `send_email_provider_error_statuses`: the five categorized
outcomes at concrete inputs, and the single provider call. -/
theorem send_email_provider_error_statuses_witness :
    (send_email envW dnsOkAll sesRejectAll reqW).fst = .error 400
      "Email rejected by AWS SES (unverified sender/recipient or invalid content)"
    ∧ (send_email envW dnsOkAll sesThrottleAll reqW).fst = .error 429
      "AWS SES rate limit exceeded. Please try again later."
    ∧ (send_email envW dnsOkAll sesNoCredsAll reqW).fst = .error 401
      "AWS credentials not found"
    ∧ (send_email envW dnsOkAll sesIncompleteAll reqW).fst = .error 401
      "Incomplete AWS credentials"
    ∧ (send_email envW dnsOkAll sesEndpointAll reqW).fst = .error 503
      "Unable to reach AWS SES endpoint (check region or network)"
    ∧ (send_email envW dnsOkAll sesRejectAll reqW).snd.countP isSesSend = 1 :=
  ⟨(send_email_provider_error_statuses envW dnsOkAll sesRejectAll reqW
      "sender@example.com" (by decide) (by decide) (by decide) rfl).1 rfl,
   (send_email_provider_error_statuses envW dnsOkAll sesThrottleAll reqW
      "sender@example.com" (by decide) (by decide) (by decide) rfl).2.1 rfl,
   (send_email_provider_error_statuses envW dnsOkAll sesNoCredsAll reqW
      "sender@example.com" (by decide) (by decide) (by decide) rfl).2.2.1 rfl,
   (send_email_provider_error_statuses envW dnsOkAll sesIncompleteAll reqW
      "sender@example.com" (by decide) (by decide) (by decide) rfl).2.2.2.1 rfl,
   (send_email_provider_error_statuses envW dnsOkAll sesEndpointAll reqW
      "sender@example.com" (by decide) (by decide) (by decide) rfl).2.2.2.2.1 rfl,
   (send_email_provider_error_statuses envW dnsOkAll sesRejectAll reqW
      "sender@example.com" (by decide) (by decide) (by decide) rfl).2.2.2.2.2⟩

/-- C5: on a request that passes all preconditions and whose provider send
succeeds, the response is 200 with message exactly
"Email successfully sent to receiver_email". -/
theorem send_email_success_200 (env : Env) (dns : DnsOracle) (ses : SesOracle)
    (req : EmailRequest) (src : String)
    (hsrcv : env "SOURCE_EMAIL" = some src) (hne : src.isEmpty = false)
    (hblank : blankReq req = false)
    (hdns : dns (domainOf req.receiver_email) = .ok ())
    (hses : ses (sendArgsOf src req) = .ok) :
    (send_email env dns ses req).fst =
      .okMessage ("Email successfully sent to " ++ req.receiver_email) := by
  simp only [blankReq] at hblank
  simp [send_email, hsrcv, pythonFalsy, hne, hblank, validate_email_domain,
    hdns, hses]

/-- Witness for `send_email_success_200` at concrete inputs. -/
theorem send_email_success_200_witness :
    (send_email envW dnsOkAll sesOkAll reqW).fst =
      .okMessage "Email successfully sent to user@example.com" :=
  (send_email_success_200 envW dnsOkAll sesOkAll reqW "sender@example.com"
    (by decide) (by decide) (by decide) rfl rfl).trans (by decide)

/-- C6: on a request that passes all preconditions, an uncategorized provider
exception yields 500 with "Unexpected error: " followed by the stringified
cause, and conversely the catch-all 500 arises only from an uncategorized
exception (the five categorized outcomes and success never reach it). -/
theorem send_email_uncategorized_500 (env : Env) (dns : DnsOracle)
    (ses : SesOracle) (req : EmailRequest) (src : String)
    (hsrcv : env "SOURCE_EMAIL" = some src) (hne : src.isEmpty = false)
    (hblank : blankReq req = false)
    (hdns : dns (domainOf req.receiver_email) = .ok ()) :
    (∀ msg, ses (sendArgsOf src req) = .otherError msg →
      (send_email env dns ses req).fst =
        .error 500 ("Unexpected error: " ++ msg))
    ∧ (∀ d, (send_email env dns ses req).fst = .error 500 d →
      ∃ msg, ses (sendArgsOf src req) = .otherError msg ∧
        d = "Unexpected error: " ++ msg) := by
  simp only [blankReq] at hblank
  constructor
  · intro msg hses
    simp [send_email, hsrcv, pythonFalsy, hne, hblank, validate_email_domain,
      hdns, hses]
  · intro d hd
    cases hs : ses (sendArgsOf src req) <;>
      simp [send_email, hsrcv, pythonFalsy, hne, hblank, validate_email_domain,
        hdns, hs] at hd
    case otherError msg => exact ⟨msg, rfl, hd.symm⟩

/-- Witness for `send_email_uncategorized_500` at concrete inputs. -/
theorem send_email_uncategorized_500_witness :
    (send_email envW dnsOkAll sesOtherAll reqW).fst =
      .error 500 "Unexpected error: boom" :=
  ((send_email_uncategorized_500 envW dnsOkAll sesOtherAll reqW
      "sender@example.com" (by decide) (by decide) (by decide) rfl).1
    "boom" rfl).trans (by decide)

/-- C8: on a successful request, the provider's send operation receives
exactly the configured source, a single destination equal to the receiver
(no CC, no BCC), the request's subject, and the request's body as the
single plain-text part (no HTML). -/
theorem send_email_provider_call_args (env : Env) (dns : DnsOracle)
    (ses : SesOracle) (req : EmailRequest) (src : String)
    (hsrcv : env "SOURCE_EMAIL" = some src) (hne : src.isEmpty = false)
    (hblank : blankReq req = false)
    (hdns : dns (domainOf req.receiver_email) = .ok ())
    (hses : ses (sendArgsOf src req) = .ok) :
    send_email env dns ses req =
      (.okMessage ("Email successfully sent to " ++ req.receiver_email),
       [.dnsLookup (domainOf req.receiver_email),
        .sesSend
          { Source := src
            Destination :=
              { ToAddresses := [req.receiver_email]
                CcAddresses := []
                BccAddresses := [] }
            SubjectData := req.subject
            Body := { TextData := some req.body_text, HtmlData := none } }]) := by
  simp only [blankReq] at hblank
  simp only [sendArgsOf] at hses
  simp [send_email, hsrcv, pythonFalsy, hne, hblank, validate_email_domain,
    hdns, hses, sendArgsOf]

/-- Witness for `send_email_provider_call_args` at concrete inputs. -/
theorem send_email_provider_call_args_witness :
    send_email envW dnsOkAll sesOkAll reqW =
      (.okMessage "Email successfully sent to user@example.com",
       [.dnsLookup "example.com",
        .sesSend
          { Source := "sender@example.com"
            Destination :=
              { ToAddresses := ["user@example.com"]
                CcAddresses := []
                BccAddresses := [] }
            SubjectData := "Hi"
            Body := { TextData := some "Hello", HtmlData := none } }]) :=
  (send_email_provider_call_args envW dnsOkAll sesOkAll reqW
    "sender@example.com" (by decide) (by decide) (by decide) rfl rfl).trans
    (by decide)

/-- C3: `validate_email_domain` takes the substring after the last `@` as
the domain (for every decomposition of the email as l ++ "@" ++ d with d
free of `@`, the domain is d); it returns true after one MX lookup when the
lookup succeeds, and on a lookup error it fails with status 400 and a detail
naming that domain, identically for every error cause. -/
theorem validate_email_domain_spec (dns : DnsOracle) (email : String) :
    (∀ l d : String, email = l ++ "@" ++ d → d.toList.contains '@' = false →
      domainOf email = d)
    ∧ (dns (domainOf email) = .ok () →
      validate_email_domain dns email =
        (.ok true, [.dnsLookup (domainOf email)]))
    ∧ (∀ e : DnsError, dns (domainOf email) = .error e →
      validate_email_domain dns email =
        (.error (400, "Domain '" ++ domainOf email ++
            "' has no MX records or cannot receive email"),
         [.dnsLookup (domainOf email)])) := by
  refine ⟨?_, ?_, ?_⟩
  · intro l d hld hno
    subst hld
    exact domainOf_after_last_at l d hno
  · intro h
    simp [validate_email_domain, h]
  · intro e h
    simp [validate_email_domain, h]

/-- Witness for `validate_email_domain_spec` at concrete inputs. -/
theorem validate_email_domain_spec_witness :
    domainOf "user@example.com" = "example.com"
    ∧ validate_email_domain dnsOkAll "user@example.com" =
        (.ok true, [.dnsLookup "example.com"])
    ∧ validate_email_domain dnsFailAll "user@example.com" =
        (.error (400,
          "Domain 'example.com' has no MX records or cannot receive email"),
         [.dnsLookup "example.com"]) :=
  ⟨(validate_email_domain_spec dnsOkAll "user@example.com").1 "user"
      "example.com" (by decide) (by decide),
   (validate_email_domain_spec dnsOkAll "user@example.com").2.1 rfl,
   (validate_email_domain_spec dnsFailAll "user@example.com").2.2
      .noMxRecords rfl⟩

/-- C7: every `/test-aws` call performs one HTTP GET with a 5-second timeout
against the regional endpoint URL; on success it returns the probed status
and the first 100 characters of the body, and on any exception a 500 with
"Network test failed: " followed by the cause; no other error status can
come out of it. -/
theorem test_aws_spec (st : AppState) (envReq : Env) (get : GetOracle) :
    (∀ r, get ("https://email." ++ st.region ++ ".amazonaws.com") 5 = .ok r →
      test_aws st envReq get =
        (.okStatusText r.status_code (r.text.take 100),
         [.httpGet ("https://email." ++ st.region ++ ".amazonaws.com") 5]))
    ∧ (∀ e, get ("https://email." ++ st.region ++ ".amazonaws.com") 5 = .error e →
      test_aws st envReq get =
        (.error 500 ("Network test failed: " ++ e),
         [.httpGet ("https://email." ++ st.region ++ ".amazonaws.com") 5]))
    ∧ (∀ s d, (test_aws st envReq get).fst = .error s d → s = 500)
    ∧ (test_aws st envReq get).snd =
        [.httpGet ("https://email." ++ st.region ++ ".amazonaws.com") 5] := by
  refine ⟨?_, ?_, ?_, ?_⟩
  · intro r h
    simp [test_aws, h]
  · intro e h
    simp [test_aws, h]
  · intro s d h
    cases hg : get ("https://email." ++ st.region ++ ".amazonaws.com") 5 <;>
      simp [test_aws, hg] at h
    exact h.1.symm
  · cases hg : get ("https://email." ++ st.region ++ ".amazonaws.com") 5 <;>
      simp [test_aws, hg]

/-- Witness for `test_aws_spec`: the echoing probe and the failing probe at
the concrete startup region. -/
theorem test_aws_spec_witness :
    test_aws (startup env0Start) envNone getEcho =
      (.okStatusText 200 "https://email.us-east-1.amazonaws.com",
       [.httpGet "https://email.us-east-1.amazonaws.com" 5])
    ∧ test_aws (startup env0Start) envNone getFail =
      (.error 500 "Network test failed: connection refused",
       [.httpGet "https://email.us-east-1.amazonaws.com" 5]) :=
  ⟨(test_aws_spec (startup env0Start) envNone getEcho).1
      ⟨200, "https://email.us-east-1.amazonaws.com"⟩ rfl,
   (test_aws_spec (startup env0Start) envNone getFail).2.1
      "connection refused" rfl⟩

/-- C9 as stated is false for `region`: it is read once at process start
(module level), not at request-handling time.  With `AWS_REGION=us-east-1`
at startup and `AWS_REGION=eu-west-1` in the environment at the time the
`/test-aws` request is handled, the request probes the us-east-1 endpoint,
not the endpoint of the request-time region. -/
theorem region_read_at_startup_counterexample :
    env1Request "AWS_REGION" = some "eu-west-1"
    ∧ (startup env0Start).region = "us-east-1"
    ∧ (test_aws (startup env0Start) env1Request getEcho).snd =
        [.httpGet "https://email.us-east-1.amazonaws.com" 5]
    ∧ (test_aws (startup env0Start) env1Request getEcho).snd ≠
        [.httpGet ("https://email." ++
            ((env1Request "AWS_REGION").getD "us-east-1") ++
            ".amazonaws.com") 5] :=
  ⟨by decide, by decide, by decide, by decide⟩

/-- C9 amended: `SOURCE_EMAIL` is read from the process environment at
request-handling time — a `/send-email` request depends on the request-time
environment only through `SOURCE_EMAIL` — while `region` is read once at
process start with default "us-east-1", and a `/test-aws` request does not
read the request-time environment at all. -/
theorem config_read_times (env envReq envReq2 : Env) (dns : DnsOracle)
    (ses : SesOracle) (req : EmailRequest) (st : AppState) (get : GetOracle)
    (hagree : envReq "SOURCE_EMAIL" = envReq2 "SOURCE_EMAIL") :
    send_email envReq dns ses req = send_email envReq2 dns ses req
    ∧ test_aws st envReq get = test_aws st envReq2 get
    ∧ (startup env).region = (env "AWS_REGION").getD "us-east-1" := by
  refine ⟨?_, rfl, rfl⟩
  simp only [send_email, hagree]

/-- Witness for `config_read_times`: two request-time environments agreeing
on `SOURCE_EMAIL` only are indistinguishable to both handlers. -/
theorem config_read_times_witness :
    send_email envW dnsOkAll sesOkAll reqW =
      send_email envW2 dnsOkAll sesOkAll reqW
    ∧ test_aws (startup env0Start) envW getEcho =
      test_aws (startup env0Start) envW2 getEcho
    ∧ (startup env0Start).region = "us-east-1" :=
  ⟨(config_read_times env0Start envW envW2 dnsOkAll sesOkAll reqW
      (startup env0Start) getEcho (by decide)).1,
   (config_read_times env0Start envW envW2 dnsOkAll sesOkAll reqW
      (startup env0Start) getEcho (by decide)).2.1,
   ((config_read_times env0Start envW envW2 dnsOkAll sesOkAll reqW
      (startup env0Start) getEcho (by decide)).2.2).trans (by decide)⟩

/-- C10 (shape validation modelled from the spec, pydantic's `EmailStr` code
not being in the repository): a request whose receiver fails shape
validation is rejected before the handler body — a 422 with no DNS lookup
and no provider call — and a shape-valid receiver contains at least one
`@`, so the handler body only ever runs with such a receiver. -/
theorem emailstr_validation_before_handler (env : Env) (dns : DnsOracle)
    (ses : SesOracle) (raw : EmailRequest) :
    (isValidEmailShape raw.receiver_email = false →
      handle_send_email env dns ses raw =
        (.error 422 "value is not a valid email address", []))
    ∧ (isValidEmailShape raw.receiver_email = true →
      handle_send_email env dns ses raw = send_email env dns ses raw
      ∧ '@' ∈ raw.receiver_email.toList) := by
  constructor
  · intro h
    simp [handle_send_email, h]
  · intro h
    refine ⟨by simp [handle_send_email, h], ?_⟩
    unfold isValidEmailShape at h
    rcases hsp : splitOnAtSign raw.receiver_email.toList with
      _ | ⟨a, _ | ⟨b, _ | ⟨c, t⟩⟩⟩ <;> rw [hsp] at h
    · simp at h
    · simp at h
    · exact contains_at_of_splitOnAtSign_pair _ a b hsp
    · simp at h

/-- Witness for `emailstr_validation_before_handler`: a receiver without `@`
is rejected with no events; a shape-valid receiver reaches the handler. -/
theorem emailstr_validation_before_handler_witness :
    handle_send_email envW dnsOkAll sesOkAll ⟨"bad", "Hi", "Hello"⟩ =
      (.error 422 "value is not a valid email address", [])
    ∧ handle_send_email envW dnsOkAll sesOkAll reqW =
      send_email envW dnsOkAll sesOkAll reqW
    ∧ '@' ∈ "user@example.com".toList :=
  ⟨(emailstr_validation_before_handler envW dnsOkAll sesOkAll
      ⟨"bad", "Hi", "Hello"⟩).1 (by decide),
   ((emailstr_validation_before_handler envW dnsOkAll sesOkAll reqW).2
      (by decide)).1,
   ((emailstr_validation_before_handler envW dnsOkAll sesOkAll reqW).2
      (by decide)).2⟩

end EmailGateway
